import Mathlib

/-!
Verification of the fishing-log application (src/fishing_log_app.py) against its
natural-language specification.  The Python source is shallowly embedded below:
pure computations become Lean functions over exact rationals, the Streamlit
session state becomes an explicit state record, and the button / form handlers
become state-transition functions.  Network responses are modelled as explicit
input data (an `Option` of the nested JSON shape the code indexes into), so that
the fail-soft behaviour of the fetch boundary is a total function.
-/

namespace FishingLog

/-- One recorded fish catch.  Fields mirror the dictionary built in the
fish_log_form submit handler (source lines 174-191). -/
structure CatchEntry where
  date : String
  time : String
  location_name : String
  latitude : ℚ
  longitude : ℚ
  fish_type : String
  length_in : ℚ
  weight_lb : ℚ
  water_depth : ℚ
  fish_depth : ℚ
  bait : String
  rigging : String
  water_type : String
  position : String
  success_score : ℕ
  notes : String
deriving DecidableEq

/-- One fishing session, mirroring class `Outing` (source lines 50-75).
Calendar dates are embedded as integers (e.g. 20240501 for 2024-05-01), which
preserves the order of dates; `end_time = none` means the outing is ongoing. -/
structure Outing where
  location_name : String
  start_time : ℤ
  end_time : Option ℤ
  success_score : Option ℕ
  notes : String
  fish_caught : List CatchEntry
deriving DecidableEq

/-- `Outing.__init__` (source lines 51-62): stores the five arguments and
starts with an empty catch list.  The constructor performs no validation of
the date range. -/
def mkOuting (location_name : String) (start_time : ℤ) (end_time : Option ℤ)
    (success_score : Option ℕ) (notes : String) : Outing :=
  { location_name := location_name
    start_time := start_time
    end_time := end_time
    success_score := success_score
    notes := notes
    fish_caught := [] }

/-- `Outing.add_fish` (source lines 64-65): appends one entry at the end of
`fish_caught` and touches nothing else. -/
def Outing.add_fish (o : Outing) (fish_data : CatchEntry) : Outing :=
  { o with fish_caught := o.fish_caught ++ [fish_data] }

/-- The operations the source defines on an existing `Outing` object:
`add_fish` (the only mutator) and `to_dict` (a pure read, source lines 67-75). -/
inductive OutingOp where
  | addFish (fish_data : CatchEntry)
  | toDict
deriving DecidableEq

/-- Effect of each `Outing` operation on the object.  `to_dict` only reads the
fields, so it leaves the object unchanged. -/
def applyOutingOp (o : Outing) : OutingOp → Outing
  | .addFish e => o.add_fish e
  | .toDict => o

/-- The Streamlit session state relevant to outing management (source lines
100-103): the outing history `past_outings` and the current outing.  In Python
`current_outing` and the last history element are the same object, so the
current outing is embedded as an index into the history list
(`none` models `st.session_state['current_outing'] is None`). -/
structure AppState where
  past_outings : List Outing
  current_outing : Option ℕ
deriving DecidableEq

/-- Initial session state (source lines 100-103): empty history, no current
outing. -/
def initState : AppState := { past_outings := [], current_outing := none }

/-- The Begin Outing button handler (source lines 113-123): builds a new
`Outing` from the form fields, sets it as the current outing and appends it to
`past_outings`.  No date-range check is performed. -/
def beginOuting (s : AppState) (location : String) (start_time : ℤ)
    (end_time : Option ℤ) (score : Option ℕ) (notes : String) : AppState :=
  let new_outing := mkOuting location start_time end_time score notes
  { past_outings := s.past_outings ++ [new_outing]
    current_outing := some s.past_outings.length }

/-- Replace the element at an index of a list, leaving other elements and an
out-of-range index alone; used to model mutation of the aliased outing object. -/
def modifyIdx {α : Type} : List α → ℕ → (α → α) → List α
  | [], _, _ => []
  | a :: as, 0, f => f a :: as
  | a :: as, n + 1, f => a :: modifyIdx as n f

/-- Observable outcome of the fish_log_form submit handler: `logged` when the
success banner is shown, `skipped` when the guard condition is false and the
handler body does not run.  The source has no error path for a missing outing. -/
inductive SubmitOutcome where
  | logged
  | skipped
deriving DecidableEq

/-- The fish_log_form submit handler (source lines 170-193): the body runs only
when the form was submitted and `current_outing` is not `None`; it then calls
`add_fish` on the current outing (which is aliased with its history slot).
When the guard fails, nothing happens: no entry is appended and no error or
warning is emitted. -/
def submitCatch (s : AppState) (submitted : Bool) (entry : CatchEntry) :
    AppState × SubmitOutcome :=
  match submitted, s.current_outing with
  | true, some i =>
      ({ s with past_outings := modifyIdx s.past_outings i (fun o => o.add_fish entry) },
       SubmitOutcome.logged)
  | _, _ => (s, SubmitOutcome.skipped)

/-- Data stored with each location in the `LOCATIONS` dict (source lines 27-33). -/
structure LocationData where
  coordinates : ℚ × ℚ
  sub_locations : List String
  parking : List (ℚ × ℚ)
deriving DecidableEq

/-- The `LOCATIONS` dict, embedded as an insertion-ordered association list
(Python dicts preserve insertion order and hold at most one binding per key). -/
abbrev Registry : Type := List (String × LocationData)

/-- Python dict lookup `LOCATIONS[name]`. -/
def lookupLoc : Registry → String → Option LocationData
  | [], _ => none
  | (k, v) :: r, n => if k = n then some v else lookupLoc r n

/-- Python `LOCATIONS.pop(name)`: removes the binding of `name` (the key is
present in the handler, selected from the dict keys). -/
def popLoc : Registry → String → Registry
  | [], _ => []
  | (k, v) :: r, n => if k = n then r else (k, v) :: popLoc r n

/-- Python dict assignment `LOCATIONS[name] = data`: if the key is present its
value is overwritten in place, otherwise a new binding is appended at the end. -/
def assignLoc : Registry → String → LocationData → Registry
  | [], n, d => [(n, d)]
  | (k, v) :: r, n, d => if k = n then (n, d) :: r else (k, v) :: assignLoc r n d

/-- The Update Location button handler (source lines 235-248):
`LOCATIONS.pop(selected)` followed by `LOCATIONS[new_name] = {...}`. -/
def updateLocation (reg : Registry) (old_name new_name : String)
    (d : LocationData) : Registry :=
  assignLoc (popLoc reg old_name) new_name d

/-- One element of the innermost `value` array of the USGS response; its
`value` field is the reading as text, here modelled after parsing: `none`
stands for a string that `float()` rejects. -/
structure GageReading where
  value : Option ℚ
deriving DecidableEq

/-- One element of the `values` array of a time series. -/
structure GageValueBlock where
  value : List GageReading
deriving DecidableEq

/-- One element of the `timeSeries` array. -/
structure GageTimeSeries where
  values : List GageValueBlock
deriving DecidableEq

/-- The object under the top-level `value` key of the USGS JSON response.  A
whole response of `none` models a transport error or a body that is not JSON
(`requests.get` or `.json()` raising). -/
structure GageResponseValue where
  timeSeries : List GageTimeSeries
deriving DecidableEq

/-- The indexing chain of source line 86,
`data['value']['timeSeries'][0]['values'][0]['value'][0]['value']`, followed by
`float(...)`: any missing level or unparsable number yields `none`, which in
the source raises and is caught by the surrounding `except`.  The request sets
no period, so the upstream returns its most recent instantaneous reading at
this head position. -/
def extractGageHeight : Option GageResponseValue → Option ℚ
  | none => none
  | some d =>
    match d.timeSeries.head? with
    | none => none
    | some ts =>
      match ts.values.head? with
      | none => none
      | some vb =>
        match vb.value.head? with
        | none => none
        | some r => r.value

/-- `fetch_usgs_gage_height` (source lines 81-90): returns the parsed reading,
or on any failure warns (`st.warning`, the Boolean flag) and returns the
fallback 8.0.  Totality of this function is the embedded form of the fact that
no exception escapes the `try`/`except` to the caller. -/
def fetch_usgs_gage_height (data : Option GageResponseValue) : ℚ × Bool :=
  match extractGageHeight data with
  | some v => (v, false)
  | none => ((8 : ℚ), true)

/-- Python `x % m` on numbers: the remainder has the sign of the divisor,
`x - m * floor(x / m)`. -/
def pymod (x m : ℚ) : ℚ := x - m * (⌊x / m⌋ : ℤ)

/-- Python banker rounding of a rational to the nearest integer
(round-half-to-even), as used by the built-in `round`. -/
def roundHalfEven (x : ℚ) : ℤ :=
  let n := ⌊x⌋
  let r := x - (n : ℚ)
  if r < 1 / 2 then n
  else if 1 / 2 < r then n + 1
  else if n % 2 = 0 then n else n + 1

/-- Python `round(x, 1)`: round to one decimal place. -/
def round1 (x : ℚ) : ℚ := (roundHalfEven (10 * x) : ℚ) / 10

/-- The positional offset of source line 96:
`((lat * 1000) % 7 + (lon * 1000) % 3) / 10.0`. -/
def base_variation (lat lon : ℚ) : ℚ :=
  (pymod (lat * 1000) 7 + pymod (lon * 1000) 3) / 10

/-- `estimate_depth_from_combined_sources` (source lines 93-97): fetches the
gage height for the fixed station (the upstream response is the explicit
`data` argument), adds the positional offset and rounds to one decimal. -/
def estimate_depth_from_combined_sources (lat lon : ℚ)
    (data : Option GageResponseValue) : ℚ :=
  let gage_depth := (fetch_usgs_gage_height data).1
  round1 (gage_depth + base_variation lat lon)

/-- Helper for `trend_first_difference`: difference of each value with the
value preceding it, the first predecessor being the accumulator. -/
def trendDiffAux : ℚ → List ℚ → List (Option ℚ)
  | _, [] => []
  | prev, v :: rest => some (v - prev) :: trendDiffAux v rest

/-- Modelled from the spec: the repository source under src/ contains no Trend
Calculator implementation (no first-difference or rolling-average code exists
in fishing_log_app.py), so this models the 1-day-change column from the words
of spec section 4.3: for a chronologically sorted value column, the derived
column is null for the first row and `value[i] - value[i-1]` afterwards. -/
def trend_first_difference : List ℚ → List (Option ℚ)
  | [] => []
  | v :: rest => none :: trendDiffAux v rest

/-! Helper lemmas shared by the claim theorems. -/

theorem pymod_nonneg (x m : ℚ) (hm : 0 < m) : 0 ≤ pymod x m := by
  have h1 : (⌊x / m⌋ : ℚ) * m ≤ x := by
    have h := Int.floor_le (x / m)
    rwa [le_div_iff₀ hm] at h
  have hc : (⌊x / m⌋ : ℚ) * m = m * (⌊x / m⌋ : ℚ) := mul_comm _ _
  unfold pymod
  linarith

theorem pymod_lt (x m : ℚ) (hm : 0 < m) : pymod x m < m := by
  have h2 : x < ((⌊x / m⌋ : ℚ) + 1) * m := by
    have h := Int.lt_floor_add_one (x / m)
    rwa [div_lt_iff₀ hm] at h
  have hc : ((⌊x / m⌋ : ℚ) + 1) * m = m * (⌊x / m⌋ : ℚ) + m := by ring
  unfold pymod
  linarith

theorem modifyIdx_getElem? {α : Type} (l : List α) (i : ℕ) (f : α → α) :
    (modifyIdx l i f)[i]? = (l[i]?).map f := by
  induction l generalizing i with
  | nil => simp [modifyIdx]
  | cons a as ih =>
    cases i with
    | zero => simp [modifyIdx]
    | succ n => simpa [modifyIdx] using ih n

theorem trendDiffAux_getElem? (rest : List ℚ) (prev : ℚ) (j : ℕ) (a b : ℚ)
    (ha : rest[j]? = some a) (hb : (prev :: rest)[j]? = some b) :
    (trendDiffAux prev rest)[j]? = some (some (a - b)) := by
  induction rest generalizing prev j with
  | nil => simp at ha
  | cons v rest ih =>
    cases j with
    | zero =>
      simp only [List.getElem?_cons_zero, Option.some_inj] at ha hb
      subst ha
      subst hb
      simp [trendDiffAux]
    | succ n =>
      simp only [List.getElem?_cons_succ] at ha hb
      simpa [trendDiffAux] using ih v n ha hb

theorem lookupLoc_eq_none (reg : Registry) (n : String)
    (h : n ∉ reg.map Prod.fst) : lookupLoc reg n = none := by
  induction reg with
  | nil => rfl
  | cons kv r ih =>
    obtain ⟨k, v⟩ := kv
    simp only [List.map_cons, List.mem_cons, not_or] at h
    have hk : ¬k = n := fun hkn => h.1 hkn.symm
    simp [lookupLoc, hk, ih h.2]

theorem lookupLoc_pop_self (reg : Registry) (n : String)
    (h : (reg.map Prod.fst).Nodup) : lookupLoc (popLoc reg n) n = none := by
  induction reg with
  | nil => rfl
  | cons kv r ih =>
    obtain ⟨k, v⟩ := kv
    simp only [List.map_cons, List.nodup_cons] at h
    by_cases hk : k = n
    · subst hk
      simpa [popLoc] using lookupLoc_eq_none r k h.1
    · simp [popLoc, hk, lookupLoc, ih h.2]

theorem lookupLoc_assign_self (reg : Registry) (n : String) (d : LocationData) :
    lookupLoc (assignLoc reg n d) n = some d := by
  induction reg with
  | nil => simp [assignLoc, lookupLoc]
  | cons kv r ih =>
    obtain ⟨k, v⟩ := kv
    by_cases hk : k = n
    · simp [assignLoc, hk, lookupLoc]
    · simp [assignLoc, hk, lookupLoc, ih]

theorem lookupLoc_assign_ne (reg : Registry) (n m : String) (d : LocationData)
    (hnm : m ≠ n) : lookupLoc (assignLoc reg n d) m = lookupLoc reg m := by
  have hnm' : ¬n = m := fun h => hnm h.symm
  induction reg with
  | nil => simp [assignLoc, lookupLoc, hnm']
  | cons kv r ih =>
    obtain ⟨k, v⟩ := kv
    by_cases hk : k = n
    · subst hk
      simp [assignLoc, lookupLoc, hnm']
    · by_cases hkm : k = m
      · subst hkm
        simp [assignLoc, hk, lookupLoc]
      · simp [assignLoc, hk, lookupLoc, hkm, ih]

theorem popLoc_length (reg : Registry) (n : String)
    (h : n ∈ reg.map Prod.fst) : (popLoc reg n).length + 1 = reg.length := by
  induction reg with
  | nil => simp at h
  | cons kv r ih =>
    obtain ⟨k, v⟩ := kv
    by_cases hk : k = n
    · simp [popLoc, hk]
    · simp only [List.map_cons, List.mem_cons] at h
      rcases h with h | h

      · exact absurd h.symm hk
      · simp [popLoc, hk, ih h]

theorem assignLoc_length (reg : Registry) (n : String) (d : LocationData)
    (h : n ∈ reg.map Prod.fst) : (assignLoc reg n d).length = reg.length := by
  induction reg with
  | nil => simp at h
  | cons kv r ih =>
    obtain ⟨k, v⟩ := kv
    by_cases hk : k = n
    · simp [assignLoc, hk]
    · simp only [List.map_cons, List.mem_cons] at h
      rcases h with h | h
      · exact absurd h.symm hk
      · simp [assignLoc, hk, ih h]

theorem mem_keys_pop (reg : Registry) (n m : String) (hnm : n ≠ m)
    (h : n ∈ reg.map Prod.fst) : n ∈ (popLoc reg m).map Prod.fst := by
  induction reg with
  | nil => simp at h
  | cons kv r ih =>
    obtain ⟨k, v⟩ := kv
    simp only [List.map_cons, List.mem_cons] at h
    by_cases hk : k = m
    · subst hk
      rcases h with h | h
      · exact absurd h hnm
      · simpa [popLoc] using h
    · rcases h with h | h
      · simp [popLoc, hk, h]
      · simp [popLoc, hk, ih h]

/-! Concrete data used by the evaluation theorems. -/

/-- A concrete catch entry, with the default form values of the source. -/
def sampleEntry : CatchEntry :=
  { date := "2024-05-01", time := "07:15 AM", location_name := "113 Bridge",
    latitude := 431392 / 10000, longitude := -893875 / 10000,
    fish_type := "Channel Catfish", length_in := 20, weight_lb := 5,
    water_depth := 86 / 10, fish_depth := 76 / 10,
    bait := "Nightcrawlers", rigging := "Carolina rig",
    water_type := "Channel", position := "Shore",
    success_score := 8, notes := "" }

/-- A well-formed upstream response carrying the single reading 8. -/
def sampleResponse : Option GageResponseValue :=
  some { timeSeries := [{ values := [{ value := [{ value := some 8 }] }] }] }

/-- A different well-formed upstream response whose head reading is also 8. -/
def sampleResponseLonger : Option GageResponseValue :=
  some { timeSeries :=
    [{ values := [{ value := [{ value := some 8 }, { value := none }] }] }] }

/-- A session state with one active outing (obtained through the Begin Outing
handler). -/
def sampleActiveState : AppState :=
  beginOuting initState "113 Bridge" 20240501 (some 20240502) (some 7) ""

/-- The location data of the source `LOCATIONS` dict (source lines 27-33). -/
def bridgeData : LocationData :=
  { coordinates := (43139 / 1000, -89387 / 1000),
    sub_locations := ["Below Bridge", "Above Bridge", "Pool Between Bridges"],
    parking := [(431392 / 10000, -893875 / 10000), (431388 / 10000, -893862 / 10000)] }

/-- A second concrete location. -/
def pointData : LocationData :=
  { coordinates := (43090 / 1000, -89415 / 1000), sub_locations := [], parking := [] }

/-- Replacement fields used in the registry update evaluation. -/
def movedData : LocationData :=
  { coordinates := (43140 / 1000, -89388 / 1000),
    sub_locations := ["Below Bridge"], parking := [] }

/-- A registry holding two locations. -/
def sampleRegistry : Registry :=
  [("113 Bridge", bridgeData), ("Picnic Point", pointData)]

/-! The claim theorems. -/

/-- C1: for every latitude, longitude and successfully fetched gage height g,
the depth estimate equals g plus the positional offset
((lat*1000 mod 7) + (lon*1000 mod 3)) / 10, rounded to one decimal place; and
with a fixed gage reading, identical coordinates always yield an identical
result (the estimate depends only on the coordinates and the parsed reading). -/
theorem estimate_depth_formula (lat lon g : ℚ)
    (data data2 : Option GageResponseValue)
    (h : extractGageHeight data = some g)
    (h2 : extractGageHeight data2 = some g) :
    estimate_depth_from_combined_sources lat lon data
        = round1 (g + (pymod (lat * 1000) 7 + pymod (lon * 1000) 3) / 10)
      ∧ estimate_depth_from_combined_sources lat lon data
        = estimate_depth_from_combined_sources lat lon data2 := by
  constructor <;>
    simp [estimate_depth_from_combined_sources, fetch_usgs_gage_height, h, h2,
      base_variation]

/-- Evaluation of `estimate_depth_formula` at the coordinates of the first
parking spot of the source and two distinct responses parsing to 8. -/
theorem estimate_depth_formula_witness :
    extractGageHeight sampleResponse = some 8
    ∧ extractGageHeight sampleResponseLonger = some 8
    ∧ (estimate_depth_from_combined_sources (431392 / 10000) (-893875 / 10000) sampleResponse
          = round1 (8 + (pymod ((431392 / 10000) * 1000) 7
              + pymod ((-893875 / 10000) * 1000) 3) / 10)
        ∧ estimate_depth_from_combined_sources (431392 / 10000) (-893875 / 10000) sampleResponse
          = estimate_depth_from_combined_sources (431392 / 10000) (-893875 / 10000)
              sampleResponseLonger) :=
  ⟨rfl, rfl,
    estimate_depth_formula (431392 / 10000) (-893875 / 10000) 8
      sampleResponse sampleResponseLonger rfl rfl⟩

/-- C2 counterexample: submitting a catch entry when no outing is active does
not fail with any StateFailure condition: the handler silently does nothing,
leaving the state unchanged and producing the `skipped` outcome (the embedded
handler has no failure outcome at all, because the source has no such path). -/
theorem submit_no_outing_counterexample :
    submitCatch initState true sampleEntry = (initState, SubmitOutcome.skipped)
      ∧ (submitCatch initState true sampleEntry).1.past_outings = [] :=
  ⟨rfl, rfl⟩

/-- C2 (amended): when no outing is active, the submit handler silently skips
the append: the state is unchanged and no error is raised; when an outing is
active, the handler appends the entry to it and its catch count grows by
exactly one. -/
theorem submitCatch_spec (s : AppState) (e : CatchEntry) :
    (s.current_outing = none → submitCatch s true e = (s, SubmitOutcome.skipped))
    ∧ (∀ i o, s.current_outing = some i → s.past_outings[i]? = some o →
        (submitCatch s true e).2 = SubmitOutcome.logged
        ∧ (submitCatch s true e).1.past_outings[i]? = some (o.add_fish e)
        ∧ (o.add_fish e).fish_caught.length = o.fish_caught.length + 1) := by
  constructor
  · intro h
    unfold submitCatch
    rw [h]
  · intro i o hi ho
    have hred : submitCatch s true e =
        ({ s with past_outings := modifyIdx s.past_outings i (fun u => u.add_fish e) },
         SubmitOutcome.logged) := by
      unfold submitCatch
      rw [hi]
    refine ⟨by rw [hred], ?_, by simp [Outing.add_fish]⟩
    rw [hred]
    simp [modifyIdx_getElem?, ho]

/-- Evaluation of `submitCatch_spec` on a state with one active outing. -/
theorem submitCatch_spec_witness :
    (submitCatch sampleActiveState true sampleEntry).2 = SubmitOutcome.logged
    ∧ (submitCatch sampleActiveState true sampleEntry).1.past_outings[0]?
        = some ((mkOuting "113 Bridge" 20240501 (some 20240502) (some 7) "").add_fish sampleEntry)
    ∧ ((mkOuting "113 Bridge" 20240501 (some 20240502) (some 7) "").add_fish
          sampleEntry).fish_caught.length
        = (mkOuting "113 Bridge" 20240501 (some 20240502) (some 7) "").fish_caught.length + 1 :=
  (submitCatch_spec sampleActiveState sampleEntry).2 0
    (mkOuting "113 Bridge" 20240501 (some 20240502) (some 7) "") rfl rfl

/-- C3 counterexample: beginning an outing with end date 2024-04-30 strictly
earlier than start date 2024-05-01 does not fail and an outing IS created: it
is appended to the history and set as the current outing. -/
theorem beginOuting_inverted_range_counterexample :
    (20240430 : ℤ) < 20240501
    ∧ beginOuting initState "113 Bridge" 20240501 (some 20240430) (some 7) ""
        = { past_outings := [mkOuting "113 Bridge" 20240501 (some 20240430) (some 7) ""],
            current_outing := some 0 } :=
  ⟨by decide, rfl⟩

/-- C3 (amended): neither the Outing constructor nor the Begin Outing handler
validates the date range: even when the end date is strictly earlier than the
start date, the outing is created, appended to the history and set as current,
and no error of any kind is raised. -/
theorem beginOuting_no_date_validation (s : AppState) (loc : String)
    (a b : ℤ) (sc : Option ℕ) (no : String) (_hba : b < a) :
    beginOuting s loc a (some b) sc no
      = { past_outings := s.past_outings ++ [mkOuting loc a (some b) sc no],
          current_outing := some s.past_outings.length } := rfl

/-- Evaluation of `beginOuting_no_date_validation` at the inverted date range
of the spec scenario. -/
theorem beginOuting_no_date_validation_witness :
    beginOuting initState "Picnic Point" 20240501 (some 20240430) (some 3) "late"
      = { past_outings := [mkOuting "Picnic Point" 20240501 (some 20240430) (some 3) "late"],
          current_outing := some 0 } :=
  beginOuting_no_date_validation initState "Picnic Point" 20240501 20240430
    (some 3) "late" (by decide)

/-- C4: for every upstream response, fetching the latest gage height either
returns the most recent (head) height reading parsed from the response with no
warning, or, on any transport or parse failure, returns the fallback default
8.0 while emitting a non-fatal warning; the disjunction covers every input, so
no exception escapes to the caller. -/
theorem fetch_usgs_gage_height_spec (data : Option GageResponseValue) :
    (∀ v, extractGageHeight data = some v → fetch_usgs_gage_height data = (v, false))
    ∧ (extractGageHeight data = none → fetch_usgs_gage_height data = (8, true))
    ∧ ((∃ v, extractGageHeight data = some v ∧ fetch_usgs_gage_height data = (v, false))
        ∨ (extractGageHeight data = none ∧ fetch_usgs_gage_height data = (8, true))) := by
  refine ⟨?_, ?_, ?_⟩
  · intro v hv
    simp [fetch_usgs_gage_height, hv]
  · intro h
    simp [fetch_usgs_gage_height, h]
  · cases h : extractGageHeight data with
    | none => exact Or.inr ⟨rfl, by simp [fetch_usgs_gage_height, h]⟩
    | some v => exact Or.inl ⟨v, rfl, by simp [fetch_usgs_gage_height, h]⟩

/-- Evaluation of `fetch_usgs_gage_height_spec` on a response whose head
reading is 8. -/
theorem fetch_usgs_gage_height_spec_witness :
    fetch_usgs_gage_height sampleResponse = (8, false) :=
  (fetch_usgs_gage_height_spec sampleResponse).1 8 rfl

/-- C5 (spec-modelled Trend Calculator): for every non-empty chronologically
sorted value column, the 1-day-change column is null at index 0 and equals
value[i] - value[i-1] at every index i with 1 ≤ i. -/
theorem trend_first_difference_spec (vs : List ℚ) (hne : vs ≠ []) :
    (trend_first_difference vs)[0]? = some none
    ∧ ∀ i a b, 1 ≤ i → vs[i]? = some a → vs[i - 1]? = some b →
        (trend_first_difference vs)[i]? = some (some (a - b)) := by
  cases vs with
  | nil => exact absurd rfl hne
  | cons v rest =>
    refine ⟨by simp [trend_first_difference], ?_⟩
    intro i a b hi ha hb
    cases i with
    | zero => omega
    | succ j =>
      simp only [List.getElem?_cons_succ] at ha
      have hb2 : (v :: rest)[j]? = some b := by simpa using hb
      simp only [trend_first_difference, List.getElem?_cons_succ]
      exact trendDiffAux_getElem? rest v j a b ha hb2

/-- Evaluation of `trend_first_difference_spec` on the column [1, 3, 6]. -/
theorem trend_first_difference_spec_witness :
    (trend_first_difference [1, 3, 6])[0]? = some none
    ∧ (trend_first_difference [1, 3, 6])[2]? = some (some (6 - 3)) :=
  ⟨(trend_first_difference_spec [1, 3, 6] (by simp)).1,
   (trend_first_difference_spec [1, 3, 6] (by simp)).2 2 6 3 (by decide) rfl rfl⟩

/-- C6: beginning an outing creates the outing, appends it at the end of the
outing history and sets it as the current outing; the entries already present
keep their positions, so the history lists outings oldest first, in the order
they were begun. -/
theorem beginOuting_appends_history (s : AppState) (loc : String) (a : ℤ)
    (b : Option ℤ) (sc : Option ℕ) (no : String) :
    (beginOuting s loc a b sc no).past_outings
        = s.past_outings ++ [mkOuting loc a b sc no]
    ∧ (beginOuting s loc a b sc no).current_outing = some s.past_outings.length
    ∧ (beginOuting s loc a b sc no).past_outings[s.past_outings.length]?
        = some (mkOuting loc a b sc no)
    ∧ (beginOuting s loc a b sc no).past_outings.take s.past_outings.length
        = s.past_outings := by
  refine ⟨rfl, rfl, ?_, ?_⟩
  · show (s.past_outings ++ [mkOuting loc a b sc no])[s.past_outings.length]? = _
    simp
  · show (s.past_outings ++ [mkOuting loc a b sc no]).take s.past_outings.length = _
    simp

/-- C7: updating a registry location removes the binding under the old name
and binds the new name to the new fields; when the new name is the name of a
different existing entry, that entry is silently overwritten (its old value is
unreachable and the registry shrinks by one binding). -/
theorem updateLocation_spec (reg : Registry) (old_name new_name : String)
    (d : LocationData) (hnd : (reg.map Prod.fst).Nodup) :
    lookupLoc (updateLocation reg old_name new_name d) new_name = some d
    ∧ (old_name ≠ new_name →
        lookupLoc (updateLocation reg old_name new_name d) old_name = none)
    ∧ (old_name ≠ new_name → new_name ∈ reg.map Prod.fst →
        old_name ∈ reg.map Prod.fst →
        (updateLocation reg old_name new_name d).length + 1 = reg.length) := by
  refine ⟨lookupLoc_assign_self _ _ _, ?_, ?_⟩
  · intro hne
    rw [updateLocation, lookupLoc_assign_ne _ _ _ _ hne]
    exact lookupLoc_pop_self reg old_name hnd
  · intro hne hnew hold
    rw [updateLocation,
      assignLoc_length _ _ _ (mem_keys_pop reg new_name old_name hne.symm hnew)]
    exact popLoc_length reg old_name hold

/-- Evaluation of `updateLocation_spec`: renaming the bridge entry onto the
name of the other existing entry overwrites it and shrinks the registry. -/
theorem updateLocation_spec_witness :
    lookupLoc (updateLocation sampleRegistry "113 Bridge" "Picnic Point" movedData)
        "Picnic Point" = some movedData
    ∧ lookupLoc (updateLocation sampleRegistry "113 Bridge" "Picnic Point" movedData)
        "113 Bridge" = none
    ∧ (updateLocation sampleRegistry "113 Bridge" "Picnic Point" movedData).length + 1
        = sampleRegistry.length := by
  have h := updateLocation_spec sampleRegistry "113 Bridge" "Picnic Point" movedData
    (by decide)
  exact ⟨h.1, h.2.1 (by decide), h.2.2 (by decide) (by decide) (by decide)⟩

/-- C8: every operation the source defines on an existing Outing either leaves
fish_caught unchanged or appends exactly one entry at the end: the previous
list is always an unchanged initial segment of the new one, so entries are
never modified, reordered or removed. -/
theorem outing_append_only (o : Outing) (op : OutingOp) :
    ∃ t, (applyOutingOp o op).fish_caught = o.fish_caught ++ t ∧ t.length ≤ 1 := by
  cases op with
  | addFish e => exact ⟨[e], rfl, by simp⟩
  | toDict => exact ⟨[], by simp [applyOutingOp], by simp⟩

/-- C9: for every rational latitude and longitude, including negative ones,
the positional offset lies in [0, 1), because Python modulo with a positive
modulus yields a nonnegative result below the modulus; hence before the final
rounding, the estimate g + offset is never below the gage height g nor 1.0 or
more above it. -/
theorem base_variation_bounds (lat lon : ℚ) :
    0 ≤ base_variation lat lon ∧ base_variation lat lon < 1
    ∧ ∀ g : ℚ, g ≤ g + base_variation lat lon
        ∧ g + base_variation lat lon < g + 1 := by
  have h1 := pymod_nonneg (lat * 1000) 7 (by norm_num)
  have h2 := pymod_lt (lat * 1000) 7 (by norm_num)
  have h3 := pymod_nonneg (lon * 1000) 3 (by norm_num)
  have h4 := pymod_lt (lon * 1000) 3 (by norm_num)
  have hge : 0 ≤ base_variation lat lon := by
    unfold base_variation
    exact div_nonneg (by linarith) (by norm_num)
  have hlt : base_variation lat lon < 1 := by
    unfold base_variation
    rw [div_lt_one (by norm_num)]
    linarith
  exact ⟨hge, hlt, fun g => ⟨by linarith, by linarith⟩⟩

/-- C10: appending a catch entry to an Outing leaves every other field of the
Outing unchanged: location_name, start_time, end_time, success_score and notes
are identical before and after the append. -/
theorem add_fish_frame (o : Outing) (e : CatchEntry) :
    (o.add_fish e).location_name = o.location_name
    ∧ (o.add_fish e).start_time = o.start_time
    ∧ (o.add_fish e).end_time = o.end_time
    ∧ (o.add_fish e).success_score = o.success_score
    ∧ (o.add_fish e).notes = o.notes :=
  ⟨rfl, rfl, rfl, rfl, rfl⟩

end FishingLog
